import Mathlib

/-!
Verification of the World Store Service
(`src/server.py` and `src/backend/server.py`).

The service is a pair of Flask handlers over a JSON file on disk:
`get_world` opens and parses the document at a fixed path and returns it;
`save_world` parses the request body, backs the current document up to a
`.bak` sibling, and overwrites the main document.

We embed the handlers shallowly: the filesystem is the pair of the two
file slots (main path, backup path), a file content is either text that
parses to a JSON value, unparseable text, or the empty file left by
truncation (`open(path, "w")` truncates at open time, before any dump).
Python exceptions become an error type; each handler is a total function
from state and request to the new state and the HTTP response.
-/

namespace WorldStore

/-- A JSON value, the shape `json.load` / `request.get_json` produce.
Numbers are modelled as integers; no claim depends on numeric semantics. -/
inductive Json where
  | null : Json
  | bool (b : Bool) : Json
  | num (n : Int) : Json
  | str (s : String) : Json
  | arr (xs : List Json) : Json
  | obj (kvs : List (String × Json)) : Json

/-- Content of one on-disk file, as seen through `json.load`:
`good j` is text that parses to the JSON value `j` (e.g. the
pretty-printed dump of `j`); `bad` is text that fails to parse;
`empty` is the zero-byte file left when `open(path, "w")` truncated the
file and nothing was dumped (it also fails to parse). -/
inductive FileData where
  | good (j : Json) : FileData
  | bad : FileData
  | empty : FileData

/-- The filesystem state the service touches: the main document path and
its `.bak` sibling. `none` means no file exists at that path
(`os.path.exists` is false, `open` for reading raises). -/
structure FS where
  main : Option FileData
  bak : Option FileData

/-- A Python exception, as caught by the `except Exception as e` blocks. -/
inductive PyErr where
  | fileNotFound (path : String) : PyErr
  | jsonDecode : PyErr
  | badRequest : PyErr
  | attributeGet (typeName : String) : PyErr
  | typeErr (msg : String) : PyErr
  | keyErr (k : String) : PyErr
  | ioWrite : PyErr
deriving DecidableEq

/-- Python `str(e)`: the human-readable message text of an exception. -/
def PyErr.text : PyErr → String
  | .fileNotFound path => "[Errno 2] No such file or directory: " ++ path
  | .jsonDecode => "Expecting value: line 1 column 1 (char 0)"
  | .badRequest => "400 Bad Request: Failed to decode JSON object"
  | .attributeGet typeName => typeName ++ " object has no attribute get"
  | .typeErr msg => msg
  | .keyErr k => k
  | .ioWrite => "[Errno 28] No space left on device"

/-- An HTTP response: status code and JSON body (Flask `jsonify`). -/
structure Response where
  status : Nat
  body : Json

/-- The response `jsonify({'error': str(e)}), 500`. -/
def err500 (e : PyErr) : Response :=
  ⟨500, Json.obj [("error", Json.str e.text)]⟩

/-- The response `jsonify({'message': 'World data saved successfully'})`, status 200. -/
def okSaved : Response :=
  ⟨200, Json.obj [("message", Json.str "World data saved successfully")]⟩

/-- The request body of a POST, as the WSGI layer hands it over. -/
inductive ReqBody where
  | absent : ReqBody
  | invalid : ReqBody
  | json (j : Json) : ReqBody

/-- Modelled from the spec: `request.get_json()` (Flask, not under src/).
Per the spec, an absent body produces a null/empty value rather than an
early rejection, and an unparseable body is a failure (an exception the
handler catches). -/
def get_json : ReqBody → Except PyErr Json
  | .absent => .ok Json.null
  | .invalid => .error .badRequest
  | .json j => .ok j

/-- Handler `get_world` of `src/server.py` (lines 11-17): open the document at
`path`, parse it, return it with status 200; any failure is caught and
returned as a 500 with the error text. Identical code appears in
`src/backend/server.py` lines 12-18. -/
def get_world (path : String) (fs : FS) : Response :=
  match fs.main with
  | none => err500 (.fileNotFound path)
  | some .bad => err500 .jsonDecode
  | some .empty => err500 .jsonDecode
  | some (.good j) => ⟨200, j⟩

/-- Injected write failures: `json.dump` raising on the backup file or on
the main file (disk full, etc.). The truncation performed by
`open(path, "w")` has already happened when the dump raises. -/
structure Faults where
  bakWriteFails : Bool
  mainWriteFails : Bool
deriving DecidableEq

/-- The fault-free run. -/
def noFaults : Faults := ⟨false, false⟩

/-- Handler `save_world` of `src/server.py` (lines 19-35), step by step:
`data = request.get_json()`; if the main path exists, `open(bak, "w")`
(truncates the backup), `json.load(open(main))` (raises on unparseable
content, leaving the backup empty), `json.dump` of the parsed content to
the backup; then `open(main, "w")` and `json.dump(data)`; return the
success message. Any exception yields a 500 with the error text. -/
def save_world (fs : FS) (body : ReqBody) (fl : Faults) : FS × Response :=
  match get_json body with
  | .error e => (fs, err500 e)
  | .ok data =>
    match fs.main with
    | none =>
      if fl.mainWriteFails then
        ({ main := some .empty, bak := fs.bak }, err500 .ioWrite)
      else
        ({ main := some (.good data), bak := fs.bak }, okSaved)
    | some cur =>
      match cur with
      | .bad => ({ main := some cur, bak := some .empty }, err500 .jsonDecode)
      | .empty => ({ main := some cur, bak := some .empty }, err500 .jsonDecode)
      | .good orig =>
        if fl.bakWriteFails then
          ({ main := some cur, bak := some .empty }, err500 .ioWrite)
        else if fl.mainWriteFails then
          ({ main := some .empty, bak := some (.good orig) }, err500 .ioWrite)
        else
          ({ main := some (.good data), bak := some (.good orig) }, okSaved)

/-- Constant `WORLD_DATA_PATH` of `src/server.py` line 9. -/
def WORLD_DATA_PATH : String := "public/data/world.json"

/-- Constant `WORLD_DATA_PATH` of `src/backend/server.py` line 10. -/
def BACKEND_WORLD_DATA_PATH : String := "./data/world.json"

/-- The Python type name of the value a JSON value decodes to. -/
def Json.typeName : Json → String
  | .null => "NoneType"
  | .bool _ => "bool"
  | .num _ => "int"
  | .str _ => "str"
  | .arr _ => "list"
  | .obj _ => "dict"

/-- Key lookup in a decoded JSON object (Python dict lookup; keys coming
out of `json.load` are unique, so first occurrence suffices). -/
def lookupKey : List (String × Json) → String → Option Json
  | [], _ => none
  | (k, v) :: rest, key => if k = key then some v else lookupKey rest key

/-- Python `d.get(k, default)`: AttributeError unless `d` is a dict. -/
def pyGet (d : Json) (k : String) (dflt : Json) : Except PyErr Json :=
  match d with
  | .obj kvs => .ok ((lookupKey kvs k).getD dflt)
  | _ => .error (.attributeGet d.typeName)

/-- Python `len(v)`: defined for str, list and dict; TypeError otherwise. -/
def pyLen (v : Json) : Except PyErr Nat :=
  match v with
  | .str s => .ok s.length
  | .arr xs => .ok xs.length
  | .obj kvs => .ok kvs.length
  | _ => .error (.typeErr ("object of type " ++ v.typeName ++ " has no len"))

/-- Python truthiness `bool(v)` on a decoded JSON value. -/
def pyTruthy : Json → Bool
  | .null => false
  | .bool b => b
  | .num n => n != 0
  | .str s => s != ""
  | .arr xs => !xs.isEmpty
  | .obj kvs => !kvs.isEmpty

/-- Python iteration `for x in v`: lists yield their elements, strings
their one-character substrings, dicts their keys; TypeError otherwise. -/
def pyIter (v : Json) : Except PyErr (List Json) :=
  match v with
  | .arr xs => .ok xs
  | .str s => .ok (s.toList.map (fun c => Json.str (String.singleton c)))
  | .obj kvs => .ok (kvs.map (fun kv => Json.str kv.1))
  | _ => .error (.typeErr (v.typeName ++ " object is not iterable"))

/-- Python `v[k]` with a string key: KeyError on a dict missing the key,
TypeError on every non-dict. -/
def pySubscript (v : Json) (k : String) : Except PyErr Json :=
  match v with
  | .obj kvs =>
    match lookupKey kvs k with
    | some x => .ok x
    | none => .error (.keyErr k)
  | .arr _ => .error (.typeErr "list indices must be integers or slices, not str")
  | .str _ => .error (.typeErr "string indices must be integers")
  | _ => .error (.typeErr (v.typeName ++ " object is not subscriptable"))

/-- The diagnostic logging of `src/backend/server.py` lines 24-32, i.e.
the argument evaluations inside the print statements, each of which can
raise: `len(data.get("objects", []))`, `len(data.get("spawners", []))`,
the truthiness test `if data.get("objects"):`, the comprehension
`[obj["id"] for obj in data.get("objects", [])]`, and
`sum(len(obj.get("instances", [])) for obj in data.get("objects", []))`. -/
def backendLog (data : Json) : Except PyErr Unit := do
  let o1 ← pyGet data "objects" (Json.arr [])
  let _ ← pyLen o1
  let s1 ← pyGet data "spawners" (Json.arr [])
  let _ ← pyLen s1
  let c ← pyGet data "objects" Json.null
  if pyTruthy c then
    let o2 ← pyGet data "objects" (Json.arr [])
    let l2 ← pyIter o2
    let _ ← l2.mapM (fun o => pySubscript o "id")
    let o3 ← pyGet data "objects" (Json.arr [])
    let l3 ← pyIter o3
    let _ ← l3.mapM (fun o => do
      let v ← pyGet o "instances" (Json.arr [])
      pyLen v)
    pure ()
  else
    pure ()

/-- The logging inside the backup block of `src/backend/server.py`
line 39: `len(orig_data.get("objects", []))`, evaluated after
`json.load` of the current document and before the dump to the backup. -/
def backendOrigLog (orig : Json) : Except PyErr Unit := do
  let o ← pyGet orig "objects" (Json.arr [])
  let _ ← pyLen o
  pure ()

/-- Handler `get_world` of `src/backend/server.py` (lines 12-18); the handler
body is identical to the `src/server.py` one, only the configured path
constant differs. -/
def backend_get_world (path : String) (fs : FS) : Response :=
  match fs.main with
  | none => err500 (.fileNotFound path)
  | some .bad => err500 .jsonDecode
  | some .empty => err500 .jsonDecode
  | some (.good j) => ⟨200, j⟩

/-- Handler `save_world` of `src/backend/server.py` (lines 20-50): like the
`src/server.py` variant, but the diagnostic logging evaluates fields of
the request document (before the backup step) and of the stored document
(inside the backup block, after the load and before the dump); any of
those evaluations can raise and be caught as a 500. Fault-free I/O. -/
def backend_save_world (fs : FS) (body : ReqBody) : FS × Response :=
  match get_json body with
  | .error e => (fs, err500 e)
  | .ok data =>
    match backendLog data with
    | .error e => (fs, err500 e)
    | .ok _ =>
      match fs.main with
      | none => ({ main := some (.good data), bak := fs.bak }, okSaved)
      | some cur =>
        match cur with
        | .bad => ({ main := some cur, bak := some .empty }, err500 .jsonDecode)
        | .empty => ({ main := some cur, bak := some .empty }, err500 .jsonDecode)
        | .good orig =>
          match backendOrigLog orig with
          | .error e => ({ main := some cur, bak := some .empty }, err500 e)
          | .ok _ =>
            ({ main := some (.good data), bak := some (.good orig) }, okSaved)

/-! Sanity checks of the embedding on concrete runs. -/

example :
    save_world ⟨some (FileData.good (Json.num 1)), none⟩ (.json (Json.num 2)) noFaults
      = (⟨some (FileData.good (Json.num 2)), some (FileData.good (Json.num 1))⟩, okSaved) := rfl

example :
    backend_save_world ⟨none, none⟩ (.json (Json.arr []))
      = (⟨none, none⟩, err500 (.attributeGet "list")) := rfl

example :
    backend_save_world ⟨none, none⟩
        (.json (Json.obj [("objects", Json.arr [Json.obj [("id", Json.str "a")]]),
                          ("spawners", Json.arr [])]))
      = (⟨some (FileData.good (Json.obj [("objects", Json.arr [Json.obj [("id", Json.str "a")]]),
                                         ("spawners", Json.arr [])])), none⟩, okSaved) := rfl

example :
    save_world ⟨some FileData.bad, some (FileData.good Json.null)⟩ (.json (Json.num 2)) noFaults
      = (⟨some FileData.bad, some FileData.empty⟩, err500 .jsonDecode) := rfl

/-- C1: Round-trip: for every JSON document `doc`, running GetWorld
immediately after a SaveWorld(doc) that returned success yields a
document deep-equal to `doc` (a 200 response whose body is `doc`). -/
theorem round_trip_after_save (fs fs1 : FS) (doc : Json)
    (h : save_world fs (.json doc) noFaults = (fs1, okSaved)) :
    get_world WORLD_DATA_PATH fs1 = ⟨200, doc⟩ := by
  rcases fs with ⟨main, bak⟩
  cases main with
  | none =>
    injection h with h1 h2
    subst h1
    rfl
  | some f =>
    cases f with
    | good j =>
      injection h with h1 h2
      subst h1
      rfl
    | bad =>
      injection h with h1 h2
      have h3 : (500 : Nat) = 200 := congrArg Response.status h2
      exact absurd h3 (by decide)
    | empty =>
      injection h with h1 h2
      have h3 : (500 : Nat) = 200 := congrArg Response.status h2
      exact absurd h3 (by decide)

/-- C1 witness: a concrete successful save followed by a get. -/
theorem round_trip_after_save_witness :
    get_world WORLD_DATA_PATH ⟨some (FileData.good (Json.num 7)), none⟩ = ⟨200, Json.num 7⟩ :=
  round_trip_after_save ⟨none, none⟩ ⟨some (FileData.good (Json.num 7)), none⟩ (Json.num 7) rfl

/-- C2: Backup correctness: after a successful SaveWorld(doc2) following
a state in which GetWorld returned doc1, the backup path holds doc1; and
when no document exists at the main path, the backup step is skipped
(the backup path is untouched) and the call still succeeds. -/
theorem backup_correctness (fs fs1 : FS) (doc1 doc2 : Json) :
    (get_world WORLD_DATA_PATH fs = ⟨200, doc1⟩ →
      save_world fs (.json doc2) noFaults = (fs1, okSaved) →
      fs1.bak = some (FileData.good doc1)) ∧
    (fs.main = none →
      (save_world fs (.json doc2) noFaults).1.bak = fs.bak ∧
      (save_world fs (.json doc2) noFaults).2 = okSaved) := by
  constructor
  · intro hg hs
    rcases fs with ⟨main, bak⟩
    cases main with
    | none =>
      have h3 : (500 : Nat) = 200 := congrArg Response.status hg
      exact absurd h3 (by decide)
    | some f =>
      cases f with
      | good j =>
        have hj : j = doc1 := congrArg Response.body hg
        injection hs with h1 h2
        subst h1
        subst hj
        rfl
      | bad =>
        have h3 : (500 : Nat) = 200 := congrArg Response.status hg
        exact absurd h3 (by decide)
      | empty =>
        have h3 : (500 : Nat) = 200 := congrArg Response.status hg
        exact absurd h3 (by decide)
  · intro h
    rcases fs with ⟨main, bak⟩
    cases h
    exact ⟨rfl, rfl⟩

/-- C2 witness: a save over a present document puts it in the backup; a
save with no present document succeeds and leaves the backup slot as it
was (here: absent). -/
theorem backup_correctness_witness :
    ((⟨some (FileData.good (Json.num 2)), some (FileData.good (Json.num 1))⟩ : FS).bak
      = some (FileData.good (Json.num 1))) ∧
    ((save_world ⟨none, none⟩ (.json (Json.num 2)) noFaults).1.bak = (⟨none, none⟩ : FS).bak ∧
     (save_world ⟨none, none⟩ (.json (Json.num 2)) noFaults).2 = okSaved) :=
  ⟨(backup_correctness ⟨some (FileData.good (Json.num 1)), none⟩
      ⟨some (FileData.good (Json.num 2)), some (FileData.good (Json.num 1))⟩
      (Json.num 1) (Json.num 2)).1 rfl rfl,
   (backup_correctness ⟨none, none⟩ ⟨none, none⟩ (Json.num 1) (Json.num 2)).2 rfl⟩

/-- C3: Malformed body: a SaveWorld request whose body is not valid JSON
yields a 500 error response and leaves both files untouched (the parse
failure happens before any file is opened), in both variants. -/
theorem malformed_body_rejected (fs : FS) :
    save_world fs .invalid noFaults = (fs, err500 .badRequest) ∧
    backend_save_world fs .invalid = (fs, err500 .badRequest) ∧
    (err500 PyErr.badRequest).status = 500 :=
  ⟨rfl, rfl, rfl⟩

/-- C5: Missing file: when no file exists at the document path, GetWorld
returns a 500 response whose body carries the I/O failure message; the
handler is a total function (the exception is caught, no crash). -/
theorem missing_file_error (path : String) (fs : FS) (h : fs.main = none) :
    get_world path fs = err500 (.fileNotFound path) ∧
    (get_world path fs).status = 500 ∧
    (get_world path fs).body =
      Json.obj [("error", Json.str ("[Errno 2] No such file or directory: " ++ path))] := by
  rcases fs with ⟨main, bak⟩
  cases h
  exact ⟨rfl, rfl, rfl⟩

/-- C5 witness: the concrete empty filesystem. -/
theorem missing_file_error_witness :
    get_world WORLD_DATA_PATH ⟨none, none⟩ = err500 (.fileNotFound WORLD_DATA_PATH) ∧
    (get_world WORLD_DATA_PATH ⟨none, none⟩).status = 500 ∧
    (get_world WORLD_DATA_PATH ⟨none, none⟩).body =
      Json.obj [("error",
        Json.str ("[Errno 2] No such file or directory: " ++ WORLD_DATA_PATH))] :=
  missing_file_error WORLD_DATA_PATH ⟨none, none⟩ rfl

/-- C6: Idempotence: after a successful SaveWorld(doc), a second
SaveWorld(doc) succeeds and leaves the main document equal to doc and
the backup equal to the document on disk before the second call, which
is doc from the first call. -/
theorem save_idempotent (fs fs1 : FS) (doc : Json)
    (h : save_world fs (.json doc) noFaults = (fs1, okSaved)) :
    save_world fs1 (.json doc) noFaults
      = (⟨some (FileData.good doc), some (FileData.good doc)⟩, okSaved) := by
  rcases fs with ⟨main, bak⟩
  cases main with
  | none =>
    injection h with h1 h2
    subst h1
    rfl
  | some f =>
    cases f with
    | good j =>
      injection h with h1 h2
      subst h1
      rfl
    | bad =>
      injection h with h1 h2
      have h3 : (500 : Nat) = 200 := congrArg Response.status h2
      exact absurd h3 (by decide)
    | empty =>
      injection h with h1 h2
      have h3 : (500 : Nat) = 200 := congrArg Response.status h2
      exact absurd h3 (by decide)

/-- C6 witness: two concrete saves of the same document in sequence. -/
theorem save_idempotent_witness :
    save_world ⟨some (FileData.good (Json.num 5)), none⟩ (.json (Json.num 5)) noFaults
      = (⟨some (FileData.good (Json.num 5)), some (FileData.good (Json.num 5))⟩, okSaved) :=
  save_idempotent ⟨none, none⟩ ⟨some (FileData.good (Json.num 5)), none⟩ (Json.num 5) rfl

/-- C9 (implicit): when the main document file exists but holds invalid
JSON, SaveWorld returns a 500 and leaves the main document unchanged,
but the backup file has already been opened for writing and truncated
before the parse of the current document fails: whatever backup content
existed before is replaced by an empty file. -/
theorem invalid_main_truncates_backup (fs : FS) (doc : Json)
    (h : fs.main = some FileData.bad) :
    save_world fs (.json doc) noFaults
      = (⟨some FileData.bad, some FileData.empty⟩, err500 .jsonDecode) ∧
    (err500 PyErr.jsonDecode).status = 500 := by
  rcases fs with ⟨main, bak⟩
  cases h
  exact ⟨rfl, rfl⟩

/-- C9 witness: a concrete state with unparseable main content and a
non-empty previous backup. -/
theorem invalid_main_truncates_backup_witness :
    save_world ⟨some FileData.bad, some (FileData.good (Json.num 1))⟩
        (.json (Json.num 2)) noFaults
      = (⟨some FileData.bad, some FileData.empty⟩, err500 .jsonDecode) ∧
    (err500 PyErr.jsonDecode).status = 500 :=
  invalid_main_truncates_backup ⟨some FileData.bad, some (FileData.good (Json.num 1))⟩
    (Json.num 2) rfl

/-- C4 counterexample: the claim quantifies over every JSON shape and
both save handlers, but the backend variant rejects an array-shaped
document: its logging calls `data.get` on the parsed value, a list has
no such attribute, the AttributeError is caught and a 500 is returned,
and nothing is stored. -/
theorem any_shape_counterexample :
    (backend_save_world ⟨none, none⟩ (.json (Json.arr []))).2.status = 500 ∧
    (backend_save_world ⟨none, none⟩ (.json (Json.arr []))).1.main = none :=
  ⟨rfl, rfl⟩

/-- C4 (amended): in the `src/server.py` variant, SaveWorld(doc)
succeeds and stores doc as-is at the main path for every JSON shape
(given the main file, when present, parses — otherwise the backup step
fails first); no schema is enforced and no field is dropped. The
backend variant does not share this property (see the counterexample). -/
theorem any_shape_accepted (fs : FS) (doc : Json)
    (h : fs.main = none ∨ ∃ j, fs.main = some (FileData.good j)) :
    (save_world fs (.json doc) noFaults).2 = okSaved ∧
    (save_world fs (.json doc) noFaults).1.main = some (FileData.good doc) := by
  rcases fs with ⟨main, bak⟩
  rcases h with h | ⟨j, h⟩ <;> cases h <;> exact ⟨rfl, rfl⟩

/-- C4 witness: a non-object document accepted by `src/server.py`. -/
theorem any_shape_accepted_witness :
    (save_world ⟨none, none⟩ (.json (Json.arr [Json.null, Json.bool true])) noFaults).2
      = okSaved ∧
    (save_world ⟨none, none⟩ (.json (Json.arr [Json.null, Json.bool true])) noFaults).1.main
      = some (FileData.good (Json.arr [Json.null, Json.bool true])) :=
  any_shape_accepted ⟨none, none⟩ (Json.arr [Json.null, Json.bool true]) (Or.inl rfl)

/-- C7: Write ordering: when a current document exists (and parses), a
failing backup write yields a 500 with the main document untouched (the
main write is never attempted, whatever the main-write fault flag), and
a failing main write after a successful backup leaves the backup in
place holding the prior document. -/
theorem write_ordering (fs : FS) (d doc : Json) (b : Bool)
    (h : fs.main = some (FileData.good d)) :
    ((save_world fs (.json doc) ⟨true, b⟩).1.main = fs.main ∧
     (save_world fs (.json doc) ⟨true, b⟩).2 = err500 .ioWrite) ∧
    ((save_world fs (.json doc) ⟨false, true⟩).1.bak = some (FileData.good d) ∧
     (save_world fs (.json doc) ⟨false, true⟩).2 = err500 .ioWrite) := by
  rcases fs with ⟨main, bak⟩
  cases h
  exact ⟨⟨rfl, rfl⟩, ⟨rfl, rfl⟩⟩

/-- C7 witness: concrete faulty runs over a present document. -/
theorem write_ordering_witness :
    ((save_world ⟨some (FileData.good (Json.num 1)), none⟩ (.json (Json.num 2))
        ⟨true, false⟩).1.main = (⟨some (FileData.good (Json.num 1)), none⟩ : FS).main ∧
     (save_world ⟨some (FileData.good (Json.num 1)), none⟩ (.json (Json.num 2))
        ⟨true, false⟩).2 = err500 .ioWrite) ∧
    ((save_world ⟨some (FileData.good (Json.num 1)), none⟩ (.json (Json.num 2))
        ⟨false, true⟩).1.bak = some (FileData.good (Json.num 1)) ∧
     (save_world ⟨some (FileData.good (Json.num 1)), none⟩ (.json (Json.num 2))
        ⟨false, true⟩).2 = err500 .ioWrite) :=
  write_ordering ⟨some (FileData.good (Json.num 1)), none⟩ (Json.num 1) (Json.num 2)
    false rfl

/-- C8 counterexample: on an absent body the backend variant does not
proceed to success: `request.get_json()` yields None, the first logging
access `data.get` raises AttributeError on None, and the handler
returns a 500 leaving both files untouched. -/
theorem absent_body_counterexample :
    (backend_save_world ⟨some (FileData.good (Json.obj [])), none⟩ .absent).2.status = 500 ∧
    (backend_save_world ⟨some (FileData.good (Json.obj [])), none⟩ .absent).1.main
      = some (FileData.good (Json.obj [])) ∧
    (backend_save_world ⟨some (FileData.good (Json.obj [])), none⟩ .absent).1.bak = none :=
  ⟨rfl, rfl, rfl⟩

/-- C8 (amended): on an absent body the `src/server.py` handler obtains
null and proceeds — it backs up the current document when present,
writes null as the new main document and returns success — while the
backend variant fails with a 500 (AttributeError on None in its logging)
and leaves the filesystem unchanged. -/
theorem absent_body_behavior (fs : FS)
    (h : fs.main = none ∨ ∃ j, fs.main = some (FileData.good j)) :
    ((save_world fs .absent noFaults).2 = okSaved ∧
     (save_world fs .absent noFaults).1.main = some (FileData.good Json.null) ∧
     (∀ j, fs.main = some (FileData.good j) →
        (save_world fs .absent noFaults).1.bak = some (FileData.good j))) ∧
    backend_save_world fs .absent = (fs, err500 (.attributeGet "NoneType")) := by
  rcases fs with ⟨main, bak⟩
  rcases h with h | ⟨j, h⟩
  · cases h
    refine ⟨⟨rfl, rfl, ?_⟩, rfl⟩
    intro j0 hj
    exact absurd hj (by simp)
  · cases h
    refine ⟨⟨rfl, rfl, ?_⟩, rfl⟩
    intro j0 hj
    injection hj with h2
    injection h2 with h3
    subst h3
    rfl

/-- C8 witness: absent body against a present document, in both
variants. -/
theorem absent_body_behavior_witness :
    (save_world ⟨some (FileData.good (Json.num 3)), none⟩ .absent noFaults).1.bak
      = some (FileData.good (Json.num 3)) ∧
    (save_world ⟨some (FileData.good (Json.num 3)), none⟩ .absent noFaults).2 = okSaved ∧
    backend_save_world ⟨some (FileData.good (Json.num 3)), none⟩ .absent
      = (⟨some (FileData.good (Json.num 3)), none⟩, err500 (.attributeGet "NoneType")) :=
  ⟨(absent_body_behavior ⟨some (FileData.good (Json.num 3)), none⟩
      (Or.inr ⟨Json.num 3, rfl⟩)).1.2.2 (Json.num 3) rfl,
   (absent_body_behavior ⟨some (FileData.good (Json.num 3)), none⟩
      (Or.inr ⟨Json.num 3, rfl⟩)).1.1,
   (absent_body_behavior ⟨some (FileData.good (Json.num 3)), none⟩
      (Or.inr ⟨Json.num 3, rfl⟩)).2⟩

/-- C10 counterexample: the two variants are not observably equivalent.
On the same state and the same request (an array-shaped document) the
`src/server.py` handler answers 200 and stores the document while the
backend handler answers 500 and stores nothing. -/
theorem variant_equivalence_counterexample :
    (save_world ⟨none, none⟩ (.json (Json.arr [Json.num 1])) noFaults).2.status = 200 ∧
    (backend_save_world ⟨none, none⟩ (.json (Json.arr [Json.num 1]))).2.status = 500 ∧
    (save_world ⟨none, none⟩ (.json (Json.arr [Json.num 1])) noFaults).1.main
      = some (FileData.good (Json.arr [Json.num 1])) ∧
    (backend_save_world ⟨none, none⟩ (.json (Json.arr [Json.num 1]))).1.main = none :=
  ⟨rfl, rfl, rfl, rfl⟩

/-- C10 (amended): GetWorld is observably equivalent in the two variants
(same handler body, modulo the configured path, here shared); SaveWorld
is equivalent exactly on the runs where the backend diagnostic logging
raises nothing — the posted document satisfies the logging shape and so
does the stored document when one exists. -/
theorem variant_equivalence (path : String) (fs : FS) (doc : Json)
    (hl : backendLog doc = .ok ())
    (ho : ∀ j, fs.main = some (FileData.good j) → backendOrigLog j = .ok ()) :
    get_world path fs = backend_get_world path fs ∧
    save_world fs (.json doc) noFaults = backend_save_world fs (.json doc) := by
  refine ⟨rfl, ?_⟩
  rcases fs with ⟨main, bak⟩
  cases main with
  | none => simp [save_world, backend_save_world, get_json, noFaults, hl]
  | some f =>
    cases f with
    | good j =>
      have hoj := ho j rfl
      simp [save_world, backend_save_world, get_json, noFaults, hl, hoj]
    | bad => simp [save_world, backend_save_world, get_json, noFaults, hl]
    | empty => simp [save_world, backend_save_world, get_json, noFaults, hl]

/-- C10 witness: a request and state on which the logging is silent and
the two variants agree. -/
theorem variant_equivalence_witness :
    get_world WORLD_DATA_PATH ⟨none, none⟩ = backend_get_world WORLD_DATA_PATH ⟨none, none⟩ ∧
    save_world ⟨none, none⟩ (.json (Json.obj [])) noFaults
      = backend_save_world ⟨none, none⟩ (.json (Json.obj [])) :=
  variant_equivalence WORLD_DATA_PATH ⟨none, none⟩ (Json.obj []) rfl
    (fun j h => absurd h (by simp))

end WorldStore
